import Mathlib

/-!
Verification of `tools/xcframework_selector/xcframework_selector.py`.

The Python program is shallowly embedded: Python strings are modelled as
`List Char`, `str.split("-")` as `splitHyphen`, `re.sub(r"[^a-z]+", "", s)`
as `stripNonLower`, `os.path.join` (two-argument steps) as `pathJoin`, and
the process-terminating `raise SystemExit` failure paths as `Except` errors.
A Python `IndexError` (out-of-range list subscript) is modelled by the
dedicated error value `TripleError.indexOutOfRange`.
-/

deriving instance DecidableEq for Except

/-- A Python string, modelled as its list of characters. -/
abbrev PyStr := List Char

/-- `_VALID_PLATFORMS` (line 25 of the source). -/
def validPlatforms : List PyStr :=
  ["watchos".data, "ios".data, "tvos".data, "macosx".data]

/-- `_VALID_ARCHS` (line 26 of the source). -/
def validArchs : List PyStr :=
  ["i386".data, "arm64".data, "arm64e".data, "x86_64".data,
   "armv7s".data, "armv7k".data]

/-- Python `s.split("-")`: split at every hyphen, keeping empty segments;
the empty string yields `[""]`. -/
def splitHyphen : PyStr → List PyStr
  | [] => [[]]
  | c :: rest =>
    match splitHyphen rest with
    | [] => [[]]
    | h :: t => if c = '-' then [] :: h :: t else (c :: h) :: t

/-- Python `re.sub(r"[^a-z]+", "", s)` (line 49): remove every character
that is not a lowercase ASCII letter. -/
def stripNonLower (s : PyStr) : PyStr :=
  s.filter (fun c => decide ('a' ≤ c ∧ c ≤ 'z'))

/-- The failure modes of `Triple.__init__` (lines 31-55): the three
`SystemExit` messages, plus the Python `IndexError` that `parts[2]`
raises when no third segment exists. -/
inductive TripleError
  | malformed (text : PyStr)
  | unsupportedArch (arch : PyStr)
  | unsupportedPlatform (platform : PyStr)
  | indexOutOfRange
deriving DecidableEq, Repr

/-- The parsed `Triple` (lines 29-55): fields `_original`, `arch`,
`platform`, `is_simulator`. -/
structure Triple where
  original : PyStr
  arch : PyStr
  platform : PyStr
  is_simulator : Bool
deriving DecidableEq, Repr

/-- `Triple.__init__` (lines 31-55): split on hyphen; demand 2-4 segments;
check the architecture; take segment 1 as platform token unless it is
`"apple"`, in which case take segment 2 (an `IndexError` if absent);
strip non-lowercase characters; check the platform; the simulator flag
compares the last segment with `"simulator"`. -/
def parseTriple (triple : PyStr) : Except TripleError Triple :=
  let parts := splitHyphen triple
  if ¬ (parts.length = 2 ∨ parts.length = 3 ∨ parts.length = 4) then
    .error (.malformed triple)
  else
    let arch := parts.getD 0 []
    if arch ∉ validArchs then
      .error (.unsupportedArch arch)
    else
      let rawPlatform := parts.getD 1 []
      match (if rawPlatform = "apple".data then parts[2]? else some rawPlatform) with
      | none => .error .indexOutOfRange
      | some tok =>
        let platform := stripNonLower tok
        if platform ∉ validPlatforms then
          .error (.unsupportedPlatform platform)
        else
          .ok ⟨triple, arch, platform, decide (parts.getLastD [] = "simulator".data)⟩

example : parseTriple "arm64-apple-ios".data =
    .ok ⟨"arm64-apple-ios".data, "arm64".data, "ios".data, false⟩ := by decide

example : parseTriple "x86_64-apple-ios11.0-simulator".data =
    .ok ⟨"x86_64-apple-ios11.0-simulator".data, "x86_64".data, "ios".data, true⟩ := by
  decide

example : parseTriple "arm64-apple".data = .error .indexOutOfRange := by decide

example : parseTriple "mips-apple-linux".data =
    .error (.unsupportedArch "mips".data) := by decide

/-- One step of Python `os.path.join` (lines 64-68): an absolute second
component replaces the first; otherwise the components are joined with a
`/` separator unless the first is empty or already ends in `/`. -/
def pathJoin (a b : PyStr) : PyStr :=
  if b.head? = some '/' then b
  else if a = [] then b
  else if a.getLast? = some '/' then a ++ b
  else a ++ '/' :: b

/-- The part of `s` strictly before the last `'.'` in `s`. -/
def takeBeforeLastDot (s : PyStr) : PyStr :=
  ((s.reverse.dropWhile (fun c => c ≠ '.')).tail).reverse

/-- Python `os.path.splitext(s)[0]` for a plain file name (line 63): drop
the extension starting at the last dot, unless every character before that
dot is itself a dot (a leading-dots file name keeps its full name). -/
def splitextRoot (s : PyStr) : PyStr :=
  if '.' ∈ s ∧ (takeBeforeLastDot s).any (fun c => c ≠ '.') then
    takeBeforeLastDot s
  else s

example : splitextRoot "MyLib.framework".data = "MyLib".data := by decide

/-- Everything in `s` strictly before the first occurrence of the
substring `sep`; all of `s` when `sep` does not occur. -/
def takeBeforeSub (sep : PyStr) : PyStr → PyStr
  | [] => []
  | c :: rest =>
    if sep.isPrefixOf (c :: rest) then [] else c :: takeBeforeSub sep rest

/-- Whether the substring `sep` occurs anywhere in the string. -/
def hasSub (sep : PyStr) : PyStr → Bool
  | [] => sep.isEmpty
  | c :: rest => sep.isPrefixOf (c :: rest) || hasSub sep rest

/-- Line 87 of the source: `xcframework_path = plist_path.split("/Info.plist")[0]`,
the prefix of the manifest path before the first occurrence of the
substring `"/Info.plist"` (the whole path when that substring is absent). -/
def xcframeworkRoot (plistPath : PyStr) : PyStr :=
  takeBeforeSub "/Info.plist".data plistPath

/-- One entry of the manifest's `AvailableLibraries` sequence, holding
exactly the fields `Library.__init__` reads (lines 62-74). -/
structure PlistDefinition where
  LibraryIdentifier : PyStr
  LibraryPath : PyStr
  SupportedArchitectures : List PyStr
  SupportedPlatform : PyStr
  SupportedPlatformVariant : Option PyStr
deriving DecidableEq, Repr

/-- The `Library` record built by `Library.__init__` (lines 61-74). -/
structure Library where
  name : PyStr
  framework_path : PyStr
  binary_path : PyStr
  archs : List PyStr
  platform : PyStr
  is_simulator : Bool
deriving DecidableEq, Repr

/-- `Library.__init__` (lines 62-74): `name` is the library path with its
extension stripped; `framework_path = os.path.join(root, LibraryIdentifier,
LibraryPath)`; `binary_path = os.path.join(framework_path, name)`;
`archs` collects `SupportedArchitectures`; the simulator flag compares
`SupportedPlatformVariant` with `"simulator"`. -/
def Library.ofDefinition (root : PyStr) (d : PlistDefinition) : Library :=
  let name := splitextRoot d.LibraryPath
  let framework_path := pathJoin (pathJoin root d.LibraryIdentifier) d.LibraryPath
  { name := name
    framework_path := framework_path
    binary_path := pathJoin framework_path name
    archs := d.SupportedArchitectures
    platform := d.SupportedPlatform
    is_simulator := d.SupportedPlatformVariant = some "simulator".data }

/-- `Library.matches` (lines 76-81): platform equal, architecture
supported, simulator flags equal — all three conjunctive. -/
def Library.matches (l : Library) (t : Triple) : Bool :=
  t.platform == l.platform && l.archs.contains t.arch
    && t.is_simulator == l.is_simulator

/-- The failure modes of `_main` after the triple parse (lines 89-111). -/
inductive MainError
  | unsupportedVersion (v : PyStr)
  | multipleMatches (triple : PyStr)
  | noMatch (triple : PyStr)
deriving DecidableEq, Repr

/-- A recursive-copy operation `shutil.copytree(src, out, ...)` recorded
as the pair (source directory, destination directory). -/
abbrev CopyOp := PyStr × PyStr

/-- The scan of `plist["AvailableLibraries"]` in `_main` (lines 92-111),
with the copy side effects recorded: at the first matching library the
recursive copy to `output_path` is performed at once (lines 100-106) and
`found` is set; a second matching library aborts with the multiple-matches
error; the result carries the match (if any) and the list of copies that
were performed before returning. -/
def mainScan (t : Triple) (out : PyStr) :
    List Library → Option Library → List CopyOp →
    Except MainError (Option Library) × List CopyOp
  | [], found, copies => (.ok found, copies)
  | l :: rest, found, copies =>
    if l.matches t then
      match found with
      | some _ => (.error (.multipleMatches t.original), copies)
      | none => mainScan t out rest (some l) (copies ++ [(l.framework_path, out)])
    else mainScan t out rest found copies

/-- The selection part of `_main` (lines 92-111) over an already-built
library list: run the scan starting with no match found; an empty result
after the full scan is the no-match error. -/
def runSelect (t : Triple) (out : PyStr) (libs : List Library) :
    Except MainError Library × List CopyOp :=
  match mainScan t out libs none [] with
  | (.error e, copies) => (.error e, copies)
  | (.ok none, copies) => (.error (.noMatch t.original), copies)
  | (.ok (some l), copies) => (.ok l, copies)

/-- The manifest fields `_main` reads from the parsed plist (lines 89-93). -/
structure Manifest where
  XCFrameworkFormatVersion : PyStr
  AvailableLibraries : List PlistDefinition
deriving DecidableEq, Repr

/-- `_main` after the triple parse and plist load (lines 86-111): compute
the root from the manifest path, reject any format version other than
`"1.0"` before looking at any library, then scan the libraries built from
the definitions. -/
def runManifest (t : Triple) (plistPath out : PyStr) (m : Manifest) :
    Except MainError Unit × List CopyOp :=
  let root := xcframeworkRoot plistPath
  if m.XCFrameworkFormatVersion ≠ "1.0".data then
    (.error (.unsupportedVersion m.XCFrameworkFormatVersion), [])
  else
    match runSelect t out (m.AvailableLibraries.map (Library.ofDefinition root)) with
    | (.ok _, copies) => (.ok (), copies)
    | (.error e, copies) => (.error e, copies)

/-- Documented behavior of `shutil.copytree` with `dirs_exist_ok=True`
as invoked at lines 100-106, on directory trees modelled as association
lists from relative file path to file content: every file of the source
tree is written to the destination, overwriting a file of the same path,
while destination files whose path is absent from the source are left in
place (the destination is merged into, not replaced). -/
def copytreeDirsExistOk (src dest : List (PyStr × PyStr)) :
    List (PyStr × PyStr) :=
  src ++ dest.filter (fun e => !(src.any (fun s => s.fst == e.fst)))

/-- File lookup in a directory tree modelled as an association list:
the first entry with the given path wins. -/
def lookupFile (p : PyStr) : List (PyStr × PyStr) → Option PyStr
  | [] => none
  | e :: rest => if e.fst = p then some e.snd else lookupFile p rest

/-- Modelled from the spec's words (§4.2: "path of the manifest file with
its file name removed"): the directory part of a path, everything strictly
before the last slash. Used only to compare the spec's root against the
root the code computes. -/
def dirName (p : PyStr) : PyStr :=
  if '/' ∈ p then ((p.reverse.dropWhile (fun c => c ≠ '/')).tail).reverse
  else []

example : dirName "/tmp/MyLib.xcframework/Info.plist".data =
    "/tmp/MyLib.xcframework".data := by decide

/-- Taking at most `k` of `dropLast` is taking at most `k` of the list,
for `k` within the shortened length. -/
theorem dropLast_take_eq (sep : PyStr) (k : Nat) (hk : k ≤ sep.length - 1) :
    sep.dropLast.take k = sep.take k := by
  rw [List.dropLast_eq_take, List.take_take, min_eq_left hk]

/-- Whether `sep` begins a string of the form `xs ++ sep` with `xs`
nonempty is already determined with the last character of the appended
`sep` removed. -/
theorem isPrefixOf_append_dropLast (sep xs : PyStr) (hxs : xs ≠ []) :
    sep.isPrefixOf (xs ++ sep) = sep.isPrefixOf (xs ++ sep.dropLast) := by
  have hx1 : 1 ≤ xs.length := List.length_pos.mpr hxs
  have htake : (xs ++ sep).take sep.length = (xs ++ sep.dropLast).take sep.length := by
    rw [List.take_append_eq_append_take, List.take_append_eq_append_take]
    congr 1
    exact (dropLast_take_eq sep (sep.length - xs.length) (by omega)).symm
  have hiff : sep.isPrefixOf (xs ++ sep) = true ↔
      sep.isPrefixOf (xs ++ sep.dropLast) = true := by
    rw [List.isPrefixOf_iff_prefix, List.isPrefixOf_iff_prefix,
      List.prefix_iff_eq_take, List.prefix_iff_eq_take, htake]
  cases h1 : sep.isPrefixOf (xs ++ sep) <;>
    cases h2 : sep.isPrefixOf (xs ++ sep.dropLast) <;> simp_all

/-- When `sep` does not occur starting anywhere inside `dir` (also not as
an occurrence spilling over into the tail), the prefix of `dir ++ sep`
before the first occurrence of `sep` is exactly `dir`. -/
theorem takeBeforeSub_append (sep : PyStr) (hsep : sep ≠ []) (dir : PyStr)
    (h : hasSub sep (dir ++ sep.dropLast) = false) :
    takeBeforeSub sep (dir ++ sep) = dir := by
  induction dir with
  | nil =>
    rcases hs : sep with _ | ⟨c, cs⟩
    · exact absurd hs hsep
    · rw [List.nil_append, takeBeforeSub,
        if_pos (List.isPrefixOf_iff_prefix.mpr (List.prefix_refl _))]
  | cons c d ih =>
    rw [List.cons_append, hasSub] at h
    have h1 : sep.isPrefixOf (c :: (d ++ sep.dropLast)) = false :=
      (Bool.or_eq_false_iff.mp h).1
    have h2 : hasSub sep (d ++ sep.dropLast) = false :=
      (Bool.or_eq_false_iff.mp h).2
    have hpre : sep.isPrefixOf (c :: (d ++ sep)) = false := by
      have hd := isPrefixOf_append_dropLast sep (c :: d) (by simp)
      rw [List.cons_append, List.cons_append] at hd
      rw [hd]
      exact h1
    rw [List.cons_append, takeBeforeSub, if_neg (by rw [hpre]; exact Bool.false_ne_true),
      ih h2]

/-- File lookup distributes over append: an entry in the first tree wins. -/
theorem lookupFile_append_some (p : PyStr) (l₁ l₂ : List (PyStr × PyStr))
    (v : PyStr) (h : lookupFile p l₁ = some v) :
    lookupFile p (l₁ ++ l₂) = some v := by
  induction l₁ with
  | nil => cases h
  | cons e rest ih =>
    rw [lookupFile] at h
    rw [List.cons_append, lookupFile]
    by_cases he : e.fst = p
    · rw [if_pos he] at h ⊢; exact h
    · rw [if_neg he] at h ⊢; exact ih h

/-- File lookup distributes over append: with no entry in the first tree,
the lookup continues in the second. -/
theorem lookupFile_append_none (p : PyStr) (l₁ l₂ : List (PyStr × PyStr))
    (h : lookupFile p l₁ = none) :
    lookupFile p (l₁ ++ l₂) = lookupFile p l₂ := by
  induction l₁ with
  | nil => rfl
  | cons e rest ih =>
    rw [lookupFile] at h
    rw [List.cons_append, lookupFile]
    by_cases he : e.fst = p
    · rw [if_pos he] at h; cases h
    · rw [if_neg he] at h ⊢; exact ih h

/-- A path that has no entry in a tree fails every key comparison of an
`any` scan over that tree. -/
theorem lookupFile_any_false (p : PyStr) (src : List (PyStr × PyStr))
    (h : lookupFile p src = none) :
    src.any (fun s => s.fst == p) = false := by
  induction src with
  | nil => rfl
  | cons s rest ih =>
    rw [lookupFile] at h
    by_cases hs : s.fst = p
    · rw [if_pos hs] at h; cases h
    · rw [if_neg hs] at h
      rw [List.any_cons, ih h, beq_eq_false_iff_ne.mpr hs]
      rfl

/-- Filtering away destination entries whose path appears in the source
does not change lookups at paths absent from the source. -/
theorem lookupFile_filter_src (p : PyStr) (src dest : List (PyStr × PyStr))
    (h : lookupFile p src = none) :
    lookupFile p
      (dest.filter (fun e => !(src.any (fun s => s.fst == e.fst)))) =
      lookupFile p dest := by
  induction dest with
  | nil => rfl
  | cons e rest ih =>
    rw [List.filter_cons]
    by_cases he : e.fst = p
    · subst he
      have hany : src.any (fun s => s.fst == e.fst) = false :=
        lookupFile_any_false e.fst src h

      rw [if_pos (by rw [hany]; rfl), lookupFile, lookupFile, if_pos rfl,
        if_pos rfl]
    · by_cases hc : src.any (fun s => s.fst == e.fst) = true
      · rw [if_neg (by rw [hc]; exact Bool.false_ne_true), lookupFile,
          if_neg he, ih]
      · have hc' : src.any (fun s => s.fst == e.fst) = false :=
          Bool.eq_false_iff.mpr hc
        rw [if_pos (by rw [hc']; rfl), lookupFile, if_neg he, lookupFile,
          if_neg he, ih]

/-- The platform token selected by lines 45-47 of the source: segment 1,
or segment 2 when segment 1 is the literal `"apple"`. -/
def platformToken (s : PyStr) : PyStr :=
  if (splitHyphen s).getD 1 [] = "apple".data then
    (splitHyphen s).getD 2 []
  else (splitHyphen s).getD 1 []

/-- Closed-form characterization of `parseTriple`, separating the five
outcomes: malformed segment count, unsupported architecture, the
out-of-range access of segment 2 on a two-segment `...-apple` triple,
unsupported platform, and success. -/
theorem parseTriple_spec (s : PyStr) :
    parseTriple s =
      if ¬((splitHyphen s).length = 2 ∨ (splitHyphen s).length = 3 ∨
          (splitHyphen s).length = 4) then
        .error (.malformed s)
      else if (splitHyphen s).getD 0 [] ∉ validArchs then
        .error (.unsupportedArch ((splitHyphen s).getD 0 []))
      else if (splitHyphen s).getD 1 [] = "apple".data ∧
          (splitHyphen s).length = 2 then
        .error .indexOutOfRange
      else if stripNonLower (platformToken s) ∉ validPlatforms then
        .error (.unsupportedPlatform (stripNonLower (platformToken s)))
      else
        .ok ⟨s, (splitHyphen s).getD 0 [], stripNonLower (platformToken s),
          decide ((splitHyphen s).getLastD [] = "simulator".data)⟩ := by
  unfold parseTriple platformToken
  dsimp only
  by_cases hlen : (splitHyphen s).length = 2 ∨ (splitHyphen s).length = 3 ∨
      (splitHyphen s).length = 4
  · rw [if_neg (not_not_intro hlen), if_neg (not_not_intro hlen)]
    by_cases harch : (splitHyphen s).getD 0 [] ∈ validArchs
    · rw [if_neg (not_not_intro harch), if_neg (not_not_intro harch)]
      by_cases happle : (splitHyphen s).getD 1 [] = "apple".data
      · rw [if_pos happle, if_pos happle]
        by_cases h2 : (splitHyphen s).length = 2
        · rw [List.getElem?_eq_none (by rw [h2]), if_pos ⟨happle, h2⟩]
        · have hlt : 2 < (splitHyphen s).length := by
            rcases hlen with h | h | h
            · exact absurd h h2
            · rw [h]; exact Nat.lt_succ_self 2
            · rw [h]; exact Nat.lt_of_sub_eq_succ rfl
          rw [List.getElem?_eq_getElem hlt,
            if_neg (fun hc => h2 hc.2),
            List.getD_eq_getElem (splitHyphen s) [] hlt]
      · rw [if_neg happle, if_neg happle, if_neg (fun hc => happle hc.1)]
    · rw [if_pos harch, if_pos harch]
  · rw [if_pos hlen, if_pos hlen]

/-- The matching predicate of `Library.matches` is exactly the spec's
conjunction: platform equal, architecture a member of the supported set,
simulator flags equal. -/
theorem matches_iff (l : Library) (t : Triple) :
    l.matches t = true ↔
      (t.platform = l.platform ∧ t.arch ∈ l.archs ∧
        t.is_simulator = l.is_simulator) := by
  simp [Library.matches, and_assoc]

/-- Once a match has been found, a later match aborts the scan with the
multiple-matches error and no further copy; otherwise the scan ends with
the recorded match and copies unchanged. -/
theorem mainScan_some (t : Triple) (out : PyStr) (v : Library) :
    ∀ (libs : List Library) (copies : List CopyOp),
      mainScan t out libs (some v) copies =
        if libs.filter (fun l => l.matches t) = [] then
          (Except.ok (some v), copies)
        else
          (Except.error (MainError.multipleMatches t.original), copies) := by
  intro libs
  induction libs with
  | nil => intro copies; simp [mainScan]
  | cons l rest ih =>
    intro copies
    by_cases h : l.matches t
    · simp [mainScan, h, List.filter_cons]
    · simp [mainScan, h, List.filter_cons, ih]

/-- Full characterization of the scan started with no match found: no
matching library yields no match and no copy; exactly one yields that
library with its copy performed; two or more yield the multiple-matches
error after the first match's copy was already performed. -/
theorem mainScan_none (t : Triple) (out : PyStr) :
    ∀ (libs : List Library) (copies : List CopyOp),
      mainScan t out libs none copies =
        match libs.filter (fun l => l.matches t) with
        | [] => (Except.ok none, copies)
        | [v] => (Except.ok (some v), copies ++ [(v.framework_path, out)])
        | v :: _ :: _ =>
            (Except.error (MainError.multipleMatches t.original),
              copies ++ [(v.framework_path, out)]) := by
  intro libs
  induction libs with
  | nil => intro copies; simp [mainScan]
  | cons l rest ih =>
    intro copies
    by_cases h : l.matches t
    · rw [show mainScan t out (l :: rest) none copies =
          mainScan t out rest (some l) (copies ++ [(l.framework_path, out)]) by
            simp [mainScan, h]]
      rw [mainScan_some t out l rest]
      by_cases hf : rest.filter (fun x => x.matches t) = []
      · simp [List.filter_cons, h, hf]
      · rcases hne : rest.filter (fun x => x.matches t) with _ | ⟨w, ws⟩
        · exact absurd hne hf
        · simp [List.filter_cons, h, hne]
    · rw [show mainScan t out (l :: rest) none copies =
          mainScan t out rest none copies by simp [mainScan, h]]
      rw [ih copies]
      simp [List.filter_cons, h]

/-- The selection result and copy trace of `_main`'s library scan,
as a function of the list of matching libraries. -/
theorem runSelect_eq (t : Triple) (out : PyStr) (libs : List Library) :
    runSelect t out libs =
      match libs.filter (fun l => l.matches t) with
      | [] => (Except.error (MainError.noMatch t.original), [])
      | [v] => (Except.ok v, [(v.framework_path, out)])
      | v :: _ :: _ =>
          (Except.error (MainError.multipleMatches t.original),
            [(v.framework_path, out)]) := by
  rw [runSelect, mainScan_none t out libs []]
  rcases hne : libs.filter (fun l => l.matches t) with _ | ⟨w, _ | ⟨u, us⟩⟩ <;>
    rw [hne] <;> rfl

/-- A sample device variant entry: ios, arm64, no platform variant. -/
def defIosArm64 : PlistDefinition :=
  ⟨"ios-arm64".data, "MyLib.framework".data, ["arm64".data], "ios".data, none⟩

/-- A sample simulator variant entry: ios, x86_64, simulator. -/
def defIosSim : PlistDefinition :=
  ⟨"ios-x86_64-simulator".data, "MyLib.framework".data, ["x86_64".data],
    "ios".data, some "simulator".data⟩

/-- A second device variant entry matching the same targets as
`defIosArm64`. -/
def defIosArm64Dup : PlistDefinition :=
  ⟨"ios-arm64-dup".data, "MyLib.framework".data, ["arm64".data], "ios".data,
    none⟩

/-- A sample xcframework root directory. -/
def sampleRoot : PyStr := "/tmp/MyLib.xcframework".data

/-- The library built from `defIosArm64`. -/
def libIosArm64 : Library := Library.ofDefinition sampleRoot defIosArm64

/-- The library built from `defIosSim`. -/
def libIosSim : Library := Library.ofDefinition sampleRoot defIosSim

/-- The library built from `defIosArm64Dup`. -/
def libIosArm64Dup : Library := Library.ofDefinition sampleRoot defIosArm64Dup

/-- The parsed triple `arm64-apple-ios`. -/
def tripleArm64Ios : Triple :=
  ⟨"arm64-apple-ios".data, "arm64".data, "ios".data, false⟩

example : parseTriple "arm64-apple-ios".data = .ok tripleArm64Ios := by decide

/-- C1: the selector returns a variant `v` if and only if `v` is the
unique variant of the manifest sequence satisfying the conjunctive
predicate (equal platform, architecture a member of the supported set,
equal simulator flag); if no variant satisfies it after the full scan,
selection fails with the no-match error identifying the triple. -/
theorem C1_selector_unique_match (t : Triple) (out : PyStr)
    (libs : List Library) (v : Library) :
    ((runSelect t out libs).fst = Except.ok v ↔
      libs.filter (fun l =>
        decide (t.platform = l.platform ∧ t.arch ∈ l.archs ∧
          t.is_simulator = l.is_simulator)) = [v]) ∧
    (libs.filter (fun l =>
        decide (t.platform = l.platform ∧ t.arch ∈ l.archs ∧
          t.is_simulator = l.is_simulator)) = [] →
      (runSelect t out libs).fst =
        Except.error (MainError.noMatch t.original)) := by
  have hp : ∀ l : Library,
      decide (t.platform = l.platform ∧ t.arch ∈ l.archs ∧
        t.is_simulator = l.is_simulator) = l.matches t := by
    intro l
    cases hb : l.matches t
    · exact decide_eq_false fun hP => by
        rw [(matches_iff l t).mpr hP] at hb; cases hb
    · exact decide_eq_true ((matches_iff l t).mp hb)
  have hfc : libs.filter (fun l =>
      decide (t.platform = l.platform ∧ t.arch ∈ l.archs ∧
        t.is_simulator = l.is_simulator)) =
      libs.filter (fun l => l.matches t) :=
    List.filter_congr (fun l _ => hp l)
  rw [hfc, runSelect_eq]
  rcases hne : libs.filter (fun l => l.matches t) with _ | ⟨w, _ | ⟨u, us⟩⟩ <;>
    rw [hne] <;> simp

/-- Witness for C1 at concrete inputs: the unique ios/arm64/device match
is selected, and a catalog with only a simulator variant yields the
no-match error for the device triple. -/
theorem C1_selector_unique_match_witness :
    (runSelect tripleArm64Ios "/out".data [libIosArm64, libIosSim]).fst =
      Except.ok libIosArm64 ∧
    (runSelect tripleArm64Ios "/out".data [libIosSim]).fst =
      Except.error (MainError.noMatch tripleArm64Ios.original) :=
  ⟨(C1_selector_unique_match tripleArm64Ios "/out".data
      [libIosArm64, libIosSim] libIosArm64).1.mpr (by decide),
   (C1_selector_unique_match tripleArm64Ios "/out".data
      [libIosSim] libIosArm64).2 (by decide)⟩

/-- C2 counterexample: with two matching variants the run does fail with
the multiple-matches error, but the recursive copy of the first matching
variant to the output path has already been performed before the failure,
so output is produced at the output path on this selection failure. -/
theorem C2_copy_on_failure_counterexample :
    (runSelect tripleArm64Ios "/out".data [libIosArm64, libIosArm64Dup]).fst =
      Except.error (MainError.multipleMatches tripleArm64Ios.original) ∧
    (runSelect tripleArm64Ios "/out".data [libIosArm64, libIosArm64Dup]).snd =
      [(libIosArm64.framework_path, "/out".data)] ∧
    (runSelect tripleArm64Ios "/out".data [libIosArm64, libIosArm64Dup]).snd ≠
      [] := by
  decide

/-- C2 amended: when more than one variant matches, the run fails with
the multiple-matches error, and a no-match failure produces no copy at
the output path; however, on the multiple-matches failure the copy for
the first match has already been invoked, so a partial-success state
exists at the output path. -/
theorem C2_multiple_matches_partial_copy (t : Triple) (out : PyStr)
    (libs : List Library) :
    (1 < (libs.filter (fun l => l.matches t)).length →
      (runSelect t out libs).fst =
        Except.error (MainError.multipleMatches t.original) ∧
      (runSelect t out libs).snd ≠ []) ∧
    ((runSelect t out libs).fst =
        Except.error (MainError.noMatch t.original) →
      (runSelect t out libs).snd = []) := by
  rw [runSelect_eq]
  rcases hne : libs.filter (fun l => l.matches t) with _ | ⟨w, _ | ⟨u, us⟩⟩ <;>
    rw [hne] <;> simp

/-- Witness for C2 amended at concrete inputs: a duplicate catalog fails
with the multiple-matches error after a copy was performed, and an empty
catalog's no-match failure performs no copy. -/
theorem C2_multiple_matches_partial_copy_witness :
    ((runSelect tripleArm64Ios "/out".data
        [libIosArm64, libIosArm64Dup]).fst =
      Except.error (MainError.multipleMatches tripleArm64Ios.original) ∧
      (runSelect tripleArm64Ios "/out".data
        [libIosArm64, libIosArm64Dup]).snd ≠ []) ∧
    (runSelect tripleArm64Ios "/out".data ([] : List Library)).snd = [] :=
  ⟨(C2_multiple_matches_partial_copy tripleArm64Ios "/out".data
      [libIosArm64, libIosArm64Dup]).1 (by decide),
   (C2_multiple_matches_partial_copy tripleArm64Ios "/out".data []).2
      (by decide)⟩

/-- C3 counterexample: for the manifest path "/tmp/manifest.plist", whose
file name is not Info.plist, the code keeps the entire path as the root
(it splits on the literal substring "/Info.plist"), so the variant's
source directory is not resolved against the manifest's directory. -/
theorem C3_root_not_dirname_counterexample :
    xcframeworkRoot "/tmp/manifest.plist".data = "/tmp/manifest.plist".data ∧
    dirName "/tmp/manifest.plist".data = "/tmp".data ∧
    (Library.ofDefinition (xcframeworkRoot "/tmp/manifest.plist".data)
        defIosArm64).framework_path ≠
      pathJoin (pathJoin (dirName "/tmp/manifest.plist".data)
        defIosArm64.LibraryIdentifier) defIosArm64.LibraryPath := by
  decide

/-- C3 amended: the variant's source directory is the prefix of the
manifest path before the first occurrence of the substring "/Info.plist"
joined with the entry's LibraryIdentifier and then its LibraryPath; when
the manifest path is a directory followed by "/Info.plist" and the
substring "/Info.plist" starts nowhere inside that directory part, that
prefix is exactly the manifest's containing directory. -/
theorem C3_source_directory_root (plistPath : PyStr) (d : PlistDefinition)
    (dir : PyStr) (hpath : plistPath = dir ++ "/Info.plist".data)
    (hfirst : hasSub "/Info.plist".data (dir ++ "/Info.plis".data) = false) :
    xcframeworkRoot plistPath = dir ∧
    (Library.ofDefinition (xcframeworkRoot plistPath) d).framework_path =
      pathJoin (pathJoin dir d.LibraryIdentifier) d.LibraryPath := by
  subst hpath
  have hdrop : ("/Info.plist".data).dropLast = "/Info.plis".data := by decide
  have hroot : xcframeworkRoot (dir ++ "/Info.plist".data) = dir := by
    rw [xcframeworkRoot]
    apply takeBeforeSub_append _ (by decide) _ ?_
    rw [hdrop]
    exact hfirst
  exact ⟨hroot, by rw [hroot]; rfl⟩

/-- Witness for C3 amended at concrete inputs: an Info.plist manifest
path inside an xcframework directory resolves the source directory
against that directory. -/
theorem C3_source_directory_root_witness :
    xcframeworkRoot "/tmp/MyLib.xcframework/Info.plist".data =
      "/tmp/MyLib.xcframework".data ∧
    (Library.ofDefinition
        (xcframeworkRoot "/tmp/MyLib.xcframework/Info.plist".data)
        defIosArm64).framework_path =
      pathJoin (pathJoin "/tmp/MyLib.xcframework".data
        defIosArm64.LibraryIdentifier) defIosArm64.LibraryPath :=
  C3_source_directory_root "/tmp/MyLib.xcframework/Info.plist".data
    defIosArm64 "/tmp/MyLib.xcframework".data (by decide) (by decide)

/-- C4 counterexample: the copy invoked with dirs_exist_ok leaves a
pre-existing destination file that is absent from the source in place, so
running against a non-empty output path does not yield the same contents
as running against a fresh output path. -/
theorem C4_preexisting_file_survives_counterexample :
    lookupFile "b".data
      (copytreeDirsExistOk [("a".data, "x".data)] [("b".data, "y".data)]) =
      some "y".data ∧
    lookupFile "b".data
      (copytreeDirsExistOk [("a".data, "x".data)]
        ([] : List (PyStr × PyStr))) = none ∧
    copytreeDirsExistOk [("a".data, "x".data)] [("b".data, "y".data)] ≠
      copytreeDirsExistOk [("a".data, "x".data)] [] := by
  decide

/-- C4 amended: the copy merges into the output path: every source file
overwrites the destination file of the same path, while pre-existing
destination files at paths absent from the source survive unchanged
(rather than being replaced away). -/
theorem C4_copytree_merge (src dest : List (PyStr × PyStr)) (p : PyStr) :
    (∀ v, lookupFile p src = some v →
      lookupFile p (copytreeDirsExistOk src dest) = some v) ∧
    (lookupFile p src = none →
      lookupFile p (copytreeDirsExistOk src dest) = lookupFile p dest) := by
  constructor
  · intro v hv
    rw [copytreeDirsExistOk]
    exact lookupFile_append_some p src _ v hv
  · intro h
    rw [copytreeDirsExistOk, lookupFile_append_none p src _ h,
      lookupFile_filter_src p src dest h]

/-- Witness for C4 amended at concrete trees: a source file overwrites
the destination entry of the same path, and a path absent from the
source keeps its destination content. -/
theorem C4_copytree_merge_witness :
    lookupFile "a".data
      (copytreeDirsExistOk [("a".data, "x".data)]
        [("a".data, "z".data), ("b".data, "y".data)]) = some "x".data ∧
    lookupFile "b".data
      (copytreeDirsExistOk [("a".data, "x".data)]
        [("a".data, "z".data), ("b".data, "y".data)]) =
      lookupFile "b".data [("a".data, "z".data), ("b".data, "y".data)] :=
  ⟨(C4_copytree_merge [("a".data, "x".data)]
      [("a".data, "z".data), ("b".data, "y".data)] "a".data).1
      "x".data (by decide),
   (C4_copytree_merge [("a".data, "x".data)]
      [("a".data, "z".data), ("b".data, "y".data)] "b".data).2 (by decide)⟩

/-- C5 counterexample: for "mips-apple-linux" the stripped platform token
is not a member of the platform set, yet parsing does not fail with the
unsupported-platform error — the architecture check fires first. -/
theorem C5_arch_precedes_platform_counterexample :
    parseTriple "mips-apple-linux".data =
      Except.error (TripleError.unsupportedArch "mips".data) ∧
    stripNonLower (platformToken "mips-apple-linux".data) ∉ validPlatforms ∧
    parseTriple "mips-apple-linux".data ≠
      Except.error (TripleError.unsupportedPlatform
        (stripNonLower (platformToken "mips-apple-linux".data))) := by
  decide

/-- C5 amended: for every triple string with 2, 3 or 4 hyphen-delimited
segments whose segment 0 is a valid architecture and which has a third
segment whenever segment 1 is the literal "apple": the platform token is
segment 2 when segment 1 is "apple" and segment 1 otherwise, every
character of it that is not a lowercase ASCII letter is stripped, and
parsing fails with the unsupported-platform error exactly when the
stripped result is not a member of {watchos, ios, tvos, macosx}; on
success the stripped result is the parsed platform. -/
theorem C5_platform_token_check (s : PyStr)
    (hlen : (splitHyphen s).length = 2 ∨ (splitHyphen s).length = 3 ∨
      (splitHyphen s).length = 4)
    (harch : (splitHyphen s).getD 0 [] ∈ validArchs)
    (happle : (splitHyphen s).getD 1 [] = "apple".data →
      3 ≤ (splitHyphen s).length) :
    (parseTriple s =
        Except.error (TripleError.unsupportedPlatform
          (stripNonLower (platformToken s))) ↔
      stripNonLower (platformToken s) ∉ validPlatforms) ∧
    (∀ tr, parseTriple s = Except.ok tr →
      tr.platform = stripNonLower (platformToken s)) := by
  have hidx : ¬((splitHyphen s).getD 1 [] = "apple".data ∧
      (splitHyphen s).length = 2) := by
    rintro ⟨ha, h2⟩
    have := happle ha
    omega
  rw [parseTriple_spec, if_neg (not_not_intro hlen),
    if_neg (not_not_intro harch), if_neg hidx]
  by_cases hplat : stripNonLower (platformToken s) ∈ validPlatforms
  · rw [if_neg (not_not_intro hplat)]
    constructor
    · constructor
      · intro h
        exact absurd h (by simp)
      · intro h
        exact absurd hplat h
    · intro tr htr
      cases htr
      rfl
  · rw [if_pos hplat]
    constructor
    · constructor
      · intro _
        exact hplat
      · intro _
        rfl
    · intro tr htr
      exact Except.noConfusion htr

/-- Witness for C5 amended at concrete inputs: "arm64-apple-linux" fails
the platform check with the stripped token "linux", and the successful
parse of "x86_64-apple-ios11.0-simulator" carries the stripped token
"ios" as its platform. -/
theorem C5_platform_token_check_witness :
    parseTriple "arm64-apple-linux".data =
      Except.error (TripleError.unsupportedPlatform
        (stripNonLower (platformToken "arm64-apple-linux".data))) ∧
    (⟨"x86_64-apple-ios11.0-simulator".data, "x86_64".data, "ios".data,
        true⟩ : Triple).platform =
      stripNonLower (platformToken "x86_64-apple-ios11.0-simulator".data) :=
  ⟨(C5_platform_token_check "arm64-apple-linux".data (by decide) (by decide)
      (by decide)).1.mpr (by decide),
   (C5_platform_token_check "x86_64-apple-ios11.0-simulator".data (by decide)
      (by decide) (by decide)).2
      ⟨"x86_64-apple-ios11.0-simulator".data, "x86_64".data, "ios".data, true⟩
      (by decide)⟩

/-- C6: the two-segment triple "arm64-apple", whose first segment is a
valid architecture and whose second segment is exactly "apple", makes the
parser access a third segment that does not exist: the result is the
modelled out-of-range indexing error, which is neither the
malformed-triple error nor the unsupported-platform error. -/
theorem C6_two_segment_apple_index_error :
    (splitHyphen "arm64-apple".data).length = 2 ∧
    "arm64".data ∈ validArchs ∧
    (splitHyphen "arm64-apple".data).getD 1 [] = "apple".data ∧
    parseTriple "arm64-apple".data =
      Except.error TripleError.indexOutOfRange ∧
    TripleError.indexOutOfRange ≠ TripleError.malformed "arm64-apple".data ∧
    TripleError.indexOutOfRange ≠
      TripleError.unsupportedPlatform (stripNonLower "apple".data) := by
  decide

/-- C7: parsing fails with the malformed-triple error identifying the
input exactly when the hyphen split yields a segment count other than 2,
3 or 4; that check precedes the architecture check, which fails with the
unsupported-arch error exactly when the segment count is admissible and
segment 0 is not in the architecture set. -/
theorem C7_malformed_then_arch_check (s : PyStr) :
    (parseTriple s = Except.error (TripleError.malformed s) ↔
      ¬((splitHyphen s).length = 2 ∨ (splitHyphen s).length = 3 ∨
        (splitHyphen s).length = 4)) ∧
    (parseTriple s =
        Except.error (TripleError.unsupportedArch
          ((splitHyphen s).getD 0 [])) ↔
      ((splitHyphen s).length = 2 ∨ (splitHyphen s).length = 3 ∨
        (splitHyphen s).length = 4) ∧
        (splitHyphen s).getD 0 [] ∉ validArchs) := by
  rw [parseTriple_spec]
  by_cases hlen : (splitHyphen s).length = 2 ∨ (splitHyphen s).length = 3 ∨
      (splitHyphen s).length = 4
  · rw [if_neg (not_not_intro hlen)]
    by_cases harch : (splitHyphen s).getD 0 [] ∈ validArchs
    · rw [if_neg (not_not_intro harch)]
      by_cases hidx : (splitHyphen s).getD 1 [] = "apple".data ∧
          (splitHyphen s).length = 2
      · rw [if_pos hidx]
        constructor <;> simp_all
      · rw [if_neg hidx]
        by_cases hplat : stripNonLower (platformToken s) ∈ validPlatforms
        · rw [if_neg (not_not_intro hplat)]
          constructor <;> simp_all
        · rw [if_pos hplat]
          constructor <;> simp_all
    · rw [if_pos harch]
      constructor <;> simp_all
  · rw [if_pos hlen]
    constructor <;> simp_all

/-- Witness for C7 at concrete inputs: a 1-segment and a 5-segment string
fail as malformed, and an unknown architecture with an admissible segment
count fails the architecture check. -/
theorem C7_malformed_then_arch_check_witness :
    parseTriple "justone".data =
      Except.error (TripleError.malformed "justone".data) ∧
    parseTriple "a-b-c-d-e".data =
      Except.error (TripleError.malformed "a-b-c-d-e".data) ∧
    parseTriple "mips-apple-ios".data =
      Except.error (TripleError.unsupportedArch
        ((splitHyphen "mips-apple-ios".data).getD 0 [])) :=
  ⟨(C7_malformed_then_arch_check "justone".data).1.mpr (by decide),
   (C7_malformed_then_arch_check "a-b-c-d-e".data).1.mpr (by decide),
   (C7_malformed_then_arch_check "mips-apple-ios".data).2.mpr (by decide)⟩

/-- C8: for every manifest whose format-version field differs from the
string "1.0", the run fails with the unsupported-version error and
performs no copy, regardless of the contents of the available-libraries
sequence — the version is checked before any variant is examined. -/
theorem C8_version_checked_first (t : Triple) (plistPath out : PyStr)
    (m : Manifest) (h : m.XCFrameworkFormatVersion ≠ "1.0".data) :
    runManifest t plistPath out m =
      (Except.error (MainError.unsupportedVersion
        m.XCFrameworkFormatVersion), []) := by
  unfold runManifest
  dsimp only
  rw [if_pos h]

/-- Witness for C8 at a concrete manifest with version "2.0" and a
non-empty library sequence. -/
theorem C8_version_checked_first_witness :
    runManifest tripleArm64Ios "/tmp/MyLib.xcframework/Info.plist".data
      "/out".data ⟨"2.0".data, [defIosArm64]⟩ =
      (Except.error (MainError.unsupportedVersion "2.0".data), []) :=
  C8_version_checked_first tripleArm64Ios
    "/tmp/MyLib.xcframework/Info.plist".data "/out".data
    ⟨"2.0".data, [defIosArm64]⟩ (by decide)

/-- C9: for every successfully parsed triple, its simulator flag is true
exactly when the last hyphen-delimited segment of the original input
string is the literal "simulator". -/
theorem C9_simulator_last_segment (s : PyStr) (tr : Triple)
    (h : parseTriple s = Except.ok tr) :
    tr.is_simulator = true ↔
      (splitHyphen s).getLastD [] = "simulator".data := by
  rw [parseTriple_spec] at h
  repeat' split at h
  all_goals first
  | exact Except.noConfusion h
  | (cases h; simp)

/-- Witness for C9 at a concrete input: the parse of
"x86_64-apple-ios11.0-simulator" has the simulator flag set. -/
theorem C9_simulator_last_segment_witness :
    (⟨"x86_64-apple-ios11.0-simulator".data, "x86_64".data, "ios".data,
      true⟩ : Triple).is_simulator = true :=
  (C9_simulator_last_segment "x86_64-apple-ios11.0-simulator".data
    ⟨"x86_64-apple-ios11.0-simulator".data, "x86_64".data, "ios".data, true⟩
    (by decide)).mpr (by decide)

/-- C10: stripping non-lowercase characters from the platform token is
idempotent, is the identity on a token consisting only of lowercase ASCII
letters, and removes embedded digits and dots: "ios11.0" becomes "ios"
and "watchos8" becomes "watchos". -/
theorem C10_strip_idempotent (s : PyStr) :
    stripNonLower (stripNonLower s) = stripNonLower s ∧
    ((∀ c ∈ s, 'a' ≤ c ∧ c ≤ 'z') → stripNonLower s = s) ∧
    stripNonLower "ios11.0".data = "ios".data ∧
    stripNonLower "watchos8".data = "watchos".data := by
  refine ⟨?_, ?_, by decide, by decide⟩
  · rw [stripNonLower, stripNonLower, List.filter_filter]
    congr 1
    funext c
    exact Bool.and_self _
  · intro h
    rw [stripNonLower]
    exact List.filter_eq_self.mpr fun c hc => decide_eq_true (h c hc)

/-- Witness for C10 at concrete tokens: stripping "ios11.0" twice equals
stripping it once, and "ios" is left unchanged. -/
theorem C10_strip_idempotent_witness :
    stripNonLower (stripNonLower "ios11.0".data) =
      stripNonLower "ios11.0".data ∧
    stripNonLower "ios".data = "ios".data :=
  ⟨(C10_strip_idempotent "ios11.0".data).1,
   (C10_strip_idempotent "ios".data).2.1 (by decide)⟩
